import Mathlib

/-!
Verification of the beehack-simulator scheduling core
(`src/run-simulation.mjs`) against its natural-language specification.

The JavaScript source is shallowly embedded: JS numbers that hold epoch
milliseconds or minute counts become `Int`; `Math.random()` draws become an
explicit rational parameter `u` with `0 ≤ u < 1`; ISO timestamp strings are
abstracted by `TsVal` (`valid ms` for a string that `Date.parse` reads back as
`ms`, `invalid` for an unparseable string); the per-instance `state.json`
object becomes the record `AgentState` whose `Option` fields are the object's
optional keys; filesystem writes become explicit ordered write logs.
-/

namespace BeehackSim

/-- A stored timestamp string: `valid ms` models an ISO string that
`Date.parse` turns back into the epoch-millisecond value `ms` (what
`formatDate` in the source produces), `invalid` models any string on which
`Date.parse` returns `NaN`. -/
inductive TsVal where
  | valid (ms : Int)
  | invalid
  deriving DecidableEq, Repr

/-- The normalized per-agent schedule produced by `normalizeAgent`
(src/run-simulation.mjs lines 128-135): minute counts plus the `only_due`
gate. `toPositiveInt` / `toNonNegativeInt` guarantee the numeric fields are
integers at runtime, so they are embedded as `Int`. -/
structure Schedule where
  interval_minutes : Int := 10
  jitter_minutes : Int := 1
  offset_minutes : Int := 0
  initial_delay_minutes : Int := 0
  only_due : Bool := true
  deriving DecidableEq, Repr

/-- `randomInt(min, max)` from the source (lines 169-171):
`Math.floor(Math.random() * (max - min + 1)) + min`, with the `Math.random()`
draw made explicit as a rational `u` (the caller supplies `0 ≤ u < 1`). -/
def randomInt (lo hi : Int) (u : ℚ) : Int :=
  ⌊u * ((hi : ℚ) - (lo : ℚ) + 1)⌋ + lo

/-- `initialRunAt(schedule)` (lines 214-222): the epoch-millisecond value of
the returned `formatDate(now)` string.  `Date.now()` is made explicit as
`now`; the jitter draw as `u`.  The total delay (initial delay + offset +
jitter) is clamped at zero by `Math.max(0, delayMs)`. -/
def initialRunAt (schedule : Schedule) (now : Int) (u : ℚ) : Int :=
  let delayMs :=
    schedule.initial_delay_minutes * 60000 +
    schedule.offset_minutes * 60000 +
    randomInt (-schedule.jitter_minutes) schedule.jitter_minutes u * 60000
  now + max 0 delayMs

/-- `nextRunAtFrom(previousTs, schedule)` (lines 224-228): the
epoch-millisecond value of the returned `formatDate(...)` string.  Line 225
computes `const previous = Number(previousTs || Date.now())`: a numeric
`previousTs` is falsy exactly when it is `0`, in which case the fallback
substitutes a fresh `Date.now()` — made explicit as the `now` parameter
(`Number` is the identity on numbers). -/
def nextRunAtFrom (previousTs : Int) (now : Int) (schedule : Schedule) (u : ℚ) : Int :=
  let previous := if previousTs = 0 then now else previousTs
  let jitter := randomInt (-schedule.jitter_minutes) schedule.jitter_minutes u * 60000
  previous + schedule.interval_minutes * 60000 + jitter

/-- `isDue(nextTs)` (lines 230-235): a missing value is due, an unparseable
value (`Date.parse` = `NaN`) is due, and a parsed timestamp is due exactly
when `Date.now() >= next`.  `Date.now()` is explicit as `now`. -/
def isDue (now : Int) (nextTs : Option TsVal) : Bool :=
  match nextTs with
  | none => true
  | some TsVal.invalid => true
  | some (TsVal.valid next) => decide (next ≤ now)

/-- The selection gate computed inside `runScheduler` (line 977):
`template.schedule.only_due ? isDue(state.next_run_at) : true`. -/
def shouldRunFlag (schedule : Schedule) (now : Int) (ts : Option TsVal) : Bool :=
  if schedule.only_due then isDue now ts else true

/-- A JavaScript value as it can appear for a boolean-ish config field. -/
inductive JsVal where
  | bool (b : Bool)
  | num (n : Int)
  | str (s : String)
  | null
  deriving DecidableEq, Repr

/-- `normalizePlatform`'s handling of `restrict_to_config` (lines 62-100):
the spread `{ ...defaults, ...raw }` keeps the default `false` when the key
is absent, then the field is replaced by `platform.restrict_to_config !==
false`, which is `true` for every value other than the literal boolean
`false`. -/
def restrictToConfigFlag (raw : Option JsVal) : Bool :=
  decide (raw.getD (JsVal.bool false) ≠ JsVal.bool false)

/-- `normalizePlatform`'s handling of `only_due` (lines 62-101): default
`true` when absent, then `platform.only_due !== false`. -/
def onlyDueFlag (raw : Option JsVal) : Bool :=
  decide (raw.getD (JsVal.bool true) ≠ JsVal.bool false)

/-- The mutable per-instance `state.json` record.  Each `Option` field is an
optional key of the JSON object; a `writeState` call replaces the whole file
with exactly the record it is given (`writeJson`, lines 147-149), so record
values here stand for whole file contents, never patches.  Timestamp-valued
fields other than `next_run_at` only ever hold `formatDate` output in the
source, so they are embedded directly as epoch milliseconds. -/
structure AgentState where
  next_run_at : Option TsVal := none
  last_run : Option Int := none
  run_count : Option Int := none
  last_error : Option String := none
  api_key : Option String := none
  registered_at : Option Int := none
  profile_url : Option String := none
  last_scheduled : Option Int := none
  updated_at : Option Int := none
  handle : Option String := none
  deriving DecidableEq, Repr

/-- The slice of a normalized agent template (`normalizeAgent`, lines
120-140) that the run/bootstrap state machine reads: the handle, the
schedule, the optional config-supplied `api_key`, and whether an
`agent_command` is configured (when it is absent, `runAgentCommand` returns
`null` without spawning anything). -/
structure Template where
  handle : String := ""
  schedule : Schedule := {}
  api_key : Option String := none
  agent_command : Bool := true
  deriving DecidableEq, Repr

/-- How the spawned child process ends: a `close` event carrying its exit
code (`none` models JavaScript `null`, i.e. the process was killed by a
signal — in particular by the SIGTERM that `runSpawnCommand`'s timeout timer
sends), or an `error` event. -/
inductive SpawnEnd where
  | closed (code : Option Int)
  | errored (msg : String)
  deriving DecidableEq, Repr

/-- One external action invocation as the environment resolves it: how the
child ended, the stdout/stderr captured up to that point, and whether the
timeout timer fired (sending SIGTERM) before the end.  A timed-out process
that dies from the SIGTERM closes with code `none`. -/
structure SpawnBehavior where
  fate : SpawnEnd := SpawnEnd.closed (some 0)
  output : String := ""
  errors : String := ""
  timedOut : Bool := false
  deriving DecidableEq, Repr

/-- `runSpawnCommand` (lines 347-392), given how the child behaves: on
`close` with code `0` or `null` it resolves with the trimmed captured
stdout (so a signal-killed — e.g. timed-out — child is resolved, not
rejected); any other exit code rejects with `errors || output ||
"exit_code_<code>"`; an `error` event rejects with its message. -/
def runSpawnCommand (b : SpawnBehavior) : Except String String :=
  match b.fate with
  | SpawnEnd.errored msg => Except.error msg
  | SpawnEnd.closed code =>
    if code = some 0 ∨ code = none then Except.ok b.output.trim
    else
      Except.error
        (if b.errors ≠ "" then b.errors
         else if b.output ≠ "" then b.output
         else "exit_code_" ++ (match code with | some c => toString c | none => "null"))

/-- `runAgentCommand` (lines 292-338): `none` when no `agent_command` is
configured (the source returns `null`), otherwise the spawn result. -/
def runAgentCommand (tmpl : Template) (b : SpawnBehavior) : Option (Except String String) :=
  if tmpl.agent_command then some (runSpawnCommand b) else none

/-- The outcome of the `POST /register` call inside `registerAgent`:
`ok key profile` is an HTTP success whose payload carries the optional
fields `config.api_key` and `config.profile_url`; `netFail` is a rejected
`apiCall` (network error, timeout abort, or non-2xx status). -/
inductive RegOutcome where
  | ok (key : Option String) (profile : Option String)
  | netFail (msg : String)
  deriving DecidableEq, Repr

/-- Result of `registerAgent`: the `state.json` writes it performed (in
order), the api key it returned, the error it threw (if any), and whether it
issued the registration network call. -/
structure RegResult where
  writes : List AgentState := []
  key : Option String := none
  thrown : Option String := none
  apiCalled : Bool := false
  deriving DecidableEq, Repr

/-- `registerAgent(dir, agent)` (lines 872-904).  `disk` is the current
content of `state.json` (`none` when the file does not exist).  If the
stored state already has an `api_key` it is returned with no write and no
network call; else a config-supplied key is seeded into a fresh two-field
record (a whole-file replacement); else the registration endpoint is
called and its (possibly absent) key is stored. -/
def registerAgent (disk : Option AgentState) (agent : Template) (reg : RegOutcome)
    (t : Int) : RegResult :=
  match disk.bind fun st => st.api_key with
  | some k => { key := some k }
  | none =>
    match agent.api_key with
    | some k =>
      { writes := [{ api_key := some k, registered_at := some t }], key := some k }
    | none =>
      match reg with
      | RegOutcome.netFail msg => { thrown := some msg, apiCalled := true }
      | RegOutcome.ok key profile =>
        { writes := [{ api_key := key, profile_url := profile, registered_at := some t }],
          key := key, apiCalled := true }

/-- The environment of one `runAgent` cycle: the registration outcome (used
only if a call is made), the action's behaviour, the jitter draw `u` for
`nextRunAtFrom`, and the `Date.now()` values observed at registration time
(`tReg`), at the end-of-cycle state update (`tRun`), and in the scheduler's
catch block (`tCatch`). -/
structure CycleOracle where
  reg : RegOutcome := RegOutcome.ok none none
  action : SpawnBehavior := {}
  u : ℚ := 0
  tReg : Int := 0
  tRun : Int := 0
  tCatch : Int := 0
  deriving DecidableEq, Repr

/-- Result of one `runAgent` call: its ordered `state.json` writes and the
error it threw, if any. -/
structure CycleResult where
  writes : List AgentState := []
  thrown : Option String := none
  deriving DecidableEq, Repr

/-- `runAgent(agentConfig, state)` (lines 906-941).  `disk` is the on-disk
`state.json` that `registerAgent` re-reads; `state` is the (in-memory)
record the scheduler passed in.  When no api key is obtained the function
returns without writing `state`.  Otherwise the action is invoked, but its
rejection is caught to `null` inside `runAgent` (line 924) and only logged,
so regardless of the action's outcome — success, failure, or timeout — the
cycle unconditionally sets `last_run` and advances `next_run_at` via
`nextRunAtFrom` and writes the state.  The `Date.now()` passed to
`nextRunAtFrom` and the one its falsy fallback would read are modelled as
the same instant `tRun`.  Only an error thrown before that point (in
practice: a failed registration call) escapes to the scheduler. -/
def runAgent (tmpl : Template) (disk : Option AgentState) (state : AgentState)
    (o : CycleOracle) : CycleResult :=
  let r := registerAgent disk tmpl o.reg o.tReg
  match r.thrown with
  | some msg => { writes := r.writes, thrown := some msg }
  | none =>
    match r.key with
    | none => { writes := r.writes }
    | some _ =>
      let final := { state with
        last_run := some o.tRun,
        next_run_at := some (TsVal.valid (nextRunAtFrom o.tRun o.tRun tmpl.schedule o.u)) }
      { writes := r.writes ++ [final] }

/-- One instance as `runScheduler` sees it: its folder name (`handle`), its
normalized template, the current `state.json` content (`none` when the file
is missing), the jitter draw used if an initial `next_run_at` must be
computed, and the cycle's environment. -/
structure SchedInput where
  handle : String := ""
  tmpl : Template := {}
  disk : Option AgentState := none
  uInit : ℚ := 0
  oracle : CycleOracle := {}
  deriving DecidableEq, Repr

/-- One entry of `runScheduler`'s `allTracked` array (lines 965-984).
`objId` is the JavaScript object identity of the `allTracked` record and
`runObjId` that of the separate `{ template, state }` literal pushed into
`runNow` for the same instance: the two are distinct objects, which is what
the later `toRun.includes(x)` reference comparison observes. -/
structure Tracked where
  handle : String := ""
  tmpl : Template := {}
  disk : Option AgentState := none
  oracle : CycleOracle := {}
  state : AgentState := {}
  nextRun : Option TsVal := none
  shouldRun : Bool := true
  objId : Nat := 0
  runObjId : Nat := 1
  deriving DecidableEq, Repr

/-- The scheduler's in-place state fill (lines 971-975): when the stored
`next_run_at` is absent it is set to `initialRunAt` and `run_count` to 0. -/
def fillState (schedule : Schedule) (now : Int) (u : ℚ) (st : AgentState) : AgentState :=
  match st.next_run_at with
  | none =>
    { st with next_run_at := some (TsVal.valid (initialRunAt schedule now u)),
              run_count := some 0 }
  | some _ => st

/-- One iteration of the scheduler's tracking loop (lines 965-984) for the
`i`-th instance: fill the state, compute the due gate, and record both
fresh object identities (`2*i` for the `allTracked` record, `2*i+1` for the
`runNow` record — even/odd so that no `runNow` object is ever the same
object as an `allTracked` record). -/
def trackOne (now : Int) (i : Nat) (inp : SchedInput) : Tracked :=
  let st := fillState inp.tmpl.schedule now inp.uInit (inp.disk.getD {})
  { handle := inp.handle
    tmpl := inp.tmpl
    disk := inp.disk
    oracle := inp.oracle
    state := st
    nextRun := st.next_run_at
    shouldRun := shouldRunFlag inp.tmpl.schedule now st.next_run_at
    objId := 2 * i
    runObjId := 2 * i + 1 }

/-- The `allTracked` list of one `runScheduler` invocation. -/
def trackedOf (now : Int) (inputs : List SchedInput) : List Tracked :=
  inputs.enum.map fun p => trackOne now p.1 p.2

/-- The `runNow` list (the due set) of one `runScheduler` invocation. -/
def runNowOf (now : Int) (inputs : List SchedInput) : List Tracked :=
  (trackedOf now inputs).filter fun x => x.shouldRun

/-- The sort key of the dispatch comparator
`Date.parse(a.state.next_run_at) - Date.parse(b.state.next_run_at)`
(line 1000).  A missing or unparseable value makes `Date.parse` return
`NaN`, which ECMAScript's sort treats as "compare equal"; such values are
modelled by the key 0 (the claims settled here never depend on the relative
order of unparseable entries). -/
def sortKey (ts : Option TsVal) : Int :=
  match ts with
  | some (TsVal.valid t) => t
  | _ => 0

/-- The dispatch comparator as a relation on tracked entries. -/
def keyLE (a b : Tracked) : Prop :=
  sortKey a.state.next_run_at ≤ sortKey b.state.next_run_at

instance : DecidableRel keyLE := fun a b =>
  inferInstanceAs (Decidable (sortKey a.state.next_run_at ≤ sortKey b.state.next_run_at))

instance : IsTotal Tracked keyLE :=
  ⟨fun a b => Int.le_total (sortKey a.state.next_run_at) (sortKey b.state.next_run_at)⟩

instance : IsTrans Tracked keyLE := ⟨fun _ _ _ h1 h2 => le_trans h1 h2⟩

/-- `runNow.sort(...)` (line 1000).  `Array.prototype.sort` is stable, and
for a total comparator every stable sort produces the same list, so the
JavaScript sort is embedded as Mathlib's stable insertion sort. -/
def sortRuns (l : List Tracked) : List Tracked := List.insertionSort keyLE l

/-- `Math.max(1, platform.max_parallel_runs)` as a list length. -/
def max1 (mpr : Int) : Nat := (max 1 mpr).toNat

/-- The dispatch selection (lines 1000-1001): sort the due set by stored
`next_run_at` ascending, then `slice(0, Math.max(1, max_parallel_runs))`. -/
def selectToRun (runNow : List Tracked) (mpr : Int) : List Tracked :=
  (sortRuns runNow).take (max1 mpr)

/-- `toRun.includes(x)` (line 1016): `Array.prototype.includes` compares
object references (SameValueZero), embedded as equality of the object
identities — the elements of `toRun` carry the identity of their `runNow`
literal, `x` that of its `allTracked` literal. -/
def includesObj (toRun : List Tracked) (x : Tracked) : Bool :=
  toRun.any fun r => r.runObjId == x.objId

/-- The `state.json` writes produced for one selected instance by the run
loop (lines 1003-1014): `merged = { ...item.state, last_scheduled: now }`
is handed to `runAgent`; if `runAgent` throws, the catch block records
`last_error` and `last_run` on `merged` and writes it. -/
def cycleWrites (now : Int) (item : Tracked) : List (String × AgentState) :=
  let merged := { item.state with last_scheduled := some now }
  let r := runAgent item.tmpl item.disk merged item.oracle
  match r.thrown with
  | none => r.writes.map fun w => (item.tmpl.handle, w)
  | some msg =>
    let errSt := { merged with last_error := some msg, last_run := some item.oracle.tCatch }
    (r.writes.map fun w => (item.tmpl.handle, w)) ++ [(item.tmpl.handle, errSt)]

/-- The record written by the trailing bookkeeping loop (line 1017):
`{ ...item.state, next_run_at: item.nextRun || item.state.next_run_at,
handle: item.handle, updated_at: formatDate(Date.now()) }`. -/
def bookkeep (tFin : Int) (item : Tracked) : AgentState :=
  { item.state with
    next_run_at := match item.nextRun with
      | some v => some v
      | none => item.state.next_run_at
    handle := some item.handle
    updated_at := some tFin }

/-- One `run` invocation, `runScheduler` (lines 957-1019), as the ordered
log of `state.json` writes it performs (`(folder, record)` pairs; each
write replaces that folder's whole `state.json`).  When no instance is due
it returns early having written nothing.  Otherwise it runs the selected
instances and then executes the trailing loop over
`allTracked.filter(x => !toRun.includes(x))`. -/
def runScheduler (now tFin : Int) (mpr : Int) (inputs : List SchedInput) :
    List (String × AgentState) :=
  if (runNowOf now inputs).isEmpty then []
  else
    ((selectToRun (runNowOf now inputs) mpr).map (cycleWrites now)).flatten ++
      ((trackedOf now inputs).filter fun x =>
          !includesObj (selectToRun (runNowOf now inputs) mpr) x).map
        fun item => (item.handle, bookkeep tFin item)

/-- The content a folder's `state.json` holds after a write log has been
applied: the last write to that folder, if any. -/
def lastWrite (log : List (String × AgentState)) (h : String) : Option AgentState :=
  ((log.filter fun p => p.1 == h).getLast?).map fun p => p.2

/-- Environment of one bootstrap iteration: registration outcome, jitter
draw for a fresh `initialRunAt`, and the observed `Date.now()`. -/
structure BootOracle where
  reg : RegOutcome := RegOutcome.ok none none
  uInit : ℚ := 0
  tNow : Int := 0
  deriving DecidableEq, Repr

/-- Result of one bootstrap iteration: its ordered `state.json` writes and
whether a registration network call was issued. -/
structure BootResult where
  writes : List AgentState := []
  apiCalled : Bool := false
  deriving DecidableEq, Repr

/-- One iteration of `bootstrap`'s agent loop (lines 1029-1072) for a
normalized config entry.  It fills a missing `next_run_at`; if the config
entry supplies an `api_key` it assigns it into the state unconditionally
(keeping an existing `registered_at`); only when the state still has no
`api_key` does it call `registerAgent` (whose thrown error is caught and
merely warned about); finally it stamps `updated_at` and writes the whole
state record. -/
def bootstrapStep (agent : Template) (disk : Option AgentState) (o : BootOracle) :
    BootResult :=
  let st0 := disk.getD {}
  let st1 :=
    match st0.next_run_at with
    | none =>
      { st0 with next_run_at := some (TsVal.valid (initialRunAt agent.schedule o.tNow o.uInit)) }
    | some _ => st0
  let st2 :=
    match agent.api_key with
    | some k =>
      { st1 with api_key := some k, registered_at := some (st1.registered_at.getD o.tNow) }
    | none => st1
  match st2.api_key with
  | some _ => { writes := [{ st2 with updated_at := some o.tNow }] }
  | none =>
    let r := registerAgent disk agent o.reg o.tNow
    let st3 :=
      match r.thrown, r.key with
      | none, some k => { st2 with api_key := some k }
      | _, _ => st2
    { writes := r.writes ++ [{ st3 with updated_at := some o.tNow }],
      apiCalled := r.apiCalled }

/-- C7: the due predicate — an absent stored `next_run_at` is due, an
unparseable one is due, a valid timestamp is due exactly when `now` has
reached it, and a schedule with `only_due = false` makes the instance due
regardless of its timestamp. -/
theorem isDue_spec (now t : Int) (schedule : Schedule) (ts : Option TsVal) :
    isDue now none = true ∧
    isDue now (some TsVal.invalid) = true ∧
    isDue now (some (TsVal.valid t)) = decide (t ≤ now) ∧
    shouldRunFlag { schedule with only_due := false } now ts = true :=
  ⟨rfl, rfl, rfl, rfl⟩

/-- C8: `initialRunAt` never schedules before the reference time: for every
schedule (any integer fields) and every jitter draw, the clamped result is
at least `now`. -/
theorem initialRunAt_ge_now (schedule : Schedule) (now : Int) (u : ℚ) :
    now ≤ initialRunAt schedule now u := by
  show now ≤ now + max 0 (schedule.initial_delay_minutes * 60000 +
      schedule.offset_minutes * 60000 +
      randomInt (-schedule.jitter_minutes) schedule.jitter_minutes u * 60000)
  have h : (0 : Int) ≤ max 0 (schedule.initial_delay_minutes * 60000 +
      schedule.offset_minutes * 60000 +
      randomInt (-schedule.jitter_minutes) schedule.jitter_minutes u * 60000) :=
    le_max_left 0 _
  omega

/-- C9 counterexample: at the reference time `0` — a falsy number — the
`previousTs || Date.now()` fallback substitutes the current time (here
`777`), so `nextRunAtFrom` with zero jitter returns `777 + interval`, not
`0 + interval`: the computation is not `t + interval` at `t = 0`. -/
theorem nextRunAtFrom_zero_prev_fallback :
    nextRunAtFrom 0 777 { interval_minutes := 10, jitter_minutes := 0 } (1 / 2) =
      777 + 10 * 60000 ∧
    (777 + 10 * 60000 : Int) ≠ 0 + 10 * 60000 := by
  have hfloor : ⌊(1 / 2 : ℚ)⌋ = 0 := by norm_num
  constructor
  · simp [nextRunAtFrom, randomInt, hfloor]
    norm_num
  · norm_num

/-- C9 amended: with `jitter_minutes = 0` the jitter draw `randomInt(-0, 0)`
is `⌊u⌋ = 0` for every `u ∈ [0, 1)`, so for every nonzero reference time
`prev` the result is exactly `prev + interval_minutes * 60000` — no
clamping and no random deviation; at the falsy reference time `0` the
source's `previousTs || Date.now()` fallback substitutes the current time,
giving `now + interval_minutes * 60000` instead. -/
theorem nextRunAtFrom_zero_jitter (schedule : Schedule) (prev now : Int) (u : ℚ)
    (hj : schedule.jitter_minutes = 0) (h0 : 0 ≤ u) (h1 : u < 1) :
    (prev ≠ 0 →
      nextRunAtFrom prev now schedule u = prev + schedule.interval_minutes * 60000) ∧
    nextRunAtFrom 0 now schedule u = now + schedule.interval_minutes * 60000 := by
  have hfloor : ⌊u⌋ = 0 := Int.floor_eq_zero_iff.mpr ⟨h0, h1⟩
  constructor
  · intro hp
    simp [nextRunAtFrom, randomInt, hj, hfloor, hp]
  · simp [nextRunAtFrom, randomInt, hj, hfloor]

/-- Witness for C9's amended theorem at a concrete schedule, a nonzero
reference time, and the draw `1/2`. -/
theorem nextRunAtFrom_zero_jitter_witness :
    nextRunAtFrom 60000 777 { interval_minutes := 10, jitter_minutes := 0 } (1 / 2) =
      660000 ∧
    nextRunAtFrom 0 777 { interval_minutes := 10, jitter_minutes := 0 } (1 / 2) =
      600777 := by
  have h := nextRunAtFrom_zero_jitter
    { interval_minutes := 10, jitter_minutes := 0 } 60000 777 (1 / 2) rfl
    (by norm_num) (by norm_num)
  exact ⟨by simpa using h.1 (by norm_num), by simpa using h.2⟩

/-- C10: platform boolean normalization — any supplied value other than the
literal boolean `false` (including `0`, `null`, and the string `"false"`)
yields `true`; the literal `false` yields `false`; an absent field defaults
to `false` for `restrict_to_config` and `true` for `only_due`. -/
theorem normalizeFlags_spec (v : JsVal) :
    (v ≠ JsVal.bool false →
      restrictToConfigFlag (some v) = true ∧ onlyDueFlag (some v) = true) ∧
    restrictToConfigFlag (some (JsVal.bool false)) = false ∧
    onlyDueFlag (some (JsVal.bool false)) = false ∧
    restrictToConfigFlag (some (JsVal.num 0)) = true ∧
    restrictToConfigFlag (some JsVal.null) = true ∧
    restrictToConfigFlag (some (JsVal.str "false")) = true ∧
    onlyDueFlag (some (JsVal.num 0)) = true ∧
    onlyDueFlag (some JsVal.null) = true ∧
    onlyDueFlag (some (JsVal.str "false")) = true ∧
    restrictToConfigFlag none = false ∧
    onlyDueFlag none = true := by
  refine ⟨fun h => ⟨?_, ?_⟩, ?_, ?_, ?_, ?_, ?_, ?_, ?_, ?_, ?_, ?_⟩
  · simpa [restrictToConfigFlag] using h
  · simpa [onlyDueFlag] using h
  all_goals decide

/-- Witness for C10, discharging the non-`false` hypothesis at `0`. -/
theorem normalizeFlags_spec_witness :
    restrictToConfigFlag (some (JsVal.num 0)) = true :=
  ((normalizeFlags_spec (JsVal.num 0)).1 (by decide)).1

/-- Every `allTracked` record has an even object identity. -/
theorem objId_even_of_mem_tracked {now : Int} {inputs : List SchedInput} {x : Tracked}
    (hx : x ∈ trackedOf now inputs) : x.objId % 2 = 0 := by
  rcases List.mem_map.mp hx with ⟨p, _, rfl⟩
  simp [trackOne]

/-- Every `runNow` literal has an odd object identity. -/
theorem runObjId_odd_of_mem_tracked {now : Int} {inputs : List SchedInput} {x : Tracked}
    (hx : x ∈ trackedOf now inputs) : x.runObjId % 2 = 1 := by
  rcases List.mem_map.mp hx with ⟨p, _, rfl⟩
  simp only [trackOne]
  omega

/-- Selection only picks elements of the due set. -/
theorem mem_of_mem_selectToRun {l : List Tracked} {mpr : Int} {x : Tracked}
    (hx : x ∈ selectToRun l mpr) : x ∈ l := by
  have h1 : x ∈ sortRuns l := List.take_subset _ _ hx
  exact (List.mem_insertionSort keyLE).mp h1

/-- The `toRun.includes(x)` check is vacuously false for every `allTracked`
record: the selected elements carry the (odd) identities of the separate
`runNow` literals, never the (even) identity of an `allTracked` record. -/
theorem includesObj_tracked_false {now : Int} {inputs : List SchedInput} {mpr : Int}
    {x : Tracked} (hx : x ∈ trackedOf now inputs) :
    includesObj (selectToRun (runNowOf now inputs) mpr) x = false := by
  simp only [includesObj, List.any_eq_false, beq_iff_eq]
  intro r hr
  have hrt : r ∈ trackedOf now inputs :=
    List.mem_of_mem_filter (mem_of_mem_selectToRun hr)
  have h1 := runObjId_odd_of_mem_tracked hrt
  have h2 := objId_even_of_mem_tracked hx
  omega

/-- When at least one instance is due, the write log is the selected
instances' cycle writes followed by a whole-record bookkeeping write for
EVERY tracked instance — the `!toRun.includes(x)` filter never excludes
anything. -/
theorem runScheduler_writes (now tFin : Int) (mpr : Int) (inputs : List SchedInput)
    (h : (runNowOf now inputs).isEmpty = false) :
    runScheduler now tFin mpr inputs =
      ((selectToRun (runNowOf now inputs) mpr).map (cycleWrites now)).flatten ++
        (trackedOf now inputs).map (fun item => (item.handle, bookkeep tFin item)) := by
  have hfilter : ((trackedOf now inputs).filter fun x =>
      !includesObj (selectToRun (runNowOf now inputs) mpr) x) = trackedOf now inputs := by
    apply List.filter_eq_self.mpr
    intro x hx
    simp [includesObj_tracked_false hx]
  rw [runScheduler, if_neg (by simp [h]), hfilter]

/-- `registerAgent` with a stored credential: the key is returned with no
write, no thrown error, and no registration call. -/
theorem registerAgent_stored {disk : Option AgentState} {agent : Template}
    {reg : RegOutcome} {t : Int} {k : String}
    (hk : disk.bind (fun s => s.api_key) = some k) :
    registerAgent disk agent reg t = { key := some k } := by
  unfold registerAgent
  rw [hk]

/-- C1: at a concrete failing input — one due instance whose cycle throws
(its registration call fails with "network down") — the catch block's write
does record `last_error`, but the trailing bookkeeping loop then rewrites
the instance's state with its pre-cycle snapshot: the write log's
`last_error` column is `[some "network down", none]` and the final
persisted record carries neither `last_error` nor `last_run`, contradicting
the claim that a failed cycle leaves them recorded in the persisted
state. -/
theorem failed_cycle_error_not_persisted :
    (runScheduler 100 999 1
        [{ handle := "a", tmpl := { handle := "a" },
           disk := some { next_run_at := some (TsVal.valid 0) },
           oracle := { reg := RegOutcome.netFail "network down" } }]).map
        (fun p => p.2.last_error) = [some "network down", none] ∧
    lastWrite (runScheduler 100 999 1
        [{ handle := "a", tmpl := { handle := "a" },
           disk := some { next_run_at := some (TsVal.valid 0) },
           oracle := { reg := RegOutcome.netFail "network down" } }]) "a" =
      some { next_run_at := some (TsVal.valid 0), handle := some "a",
             updated_at := some 999 } := by
  constructor
  · decide
  · decide

/-- C2 counterexample: a due instance whose action times out (SIGTERM kill,
`close` with code `null`) finishes its invocation with `last_error` never
set — no write in the whole log carries a `last_error` — contradicting the
claim that the timeout sets `last_error`. -/
theorem timeout_no_last_error :
    (runScheduler 100 999 1
        [{ handle := "a", tmpl := { handle := "a" },
           disk := some { next_run_at := some (TsVal.valid 0), api_key := some "key1" },
           oracle := { action := { fate := SpawnEnd.closed none, output := "partial",
                                   timedOut := true },
                       tRun := 500 } }]).map (fun p => p.2.last_error) = [none, none] := by
  decide

/-- C3 counterexample: an invocation whose only tracked instance is not due
returns early and performs no state write at all, contradicting the claim
that every tracked instance is rewritten in every invocation including
ones in which no instance is due. -/
theorem no_due_no_writes :
    runScheduler 100 999 1
      [{ handle := "a", tmpl := { handle := "a" },
         disk := some { next_run_at := some (TsVal.valid 200), api_key := some "key1" } }] =
      [] := by
  decide

/-- C2 amended: in a two-instance invocation whose first instance's action
times out, the killed action's captured output is treated as the run's
result (`runSpawnCommand` resolves it), the cycle completes normally —
`last_run` set, `next_run_at` advanced, no `last_error` anywhere — the
trailing bookkeeping pass restores the pre-cycle `next_run_at`, and the
scheduler proceeds to run the second instance. -/
theorem timeout_amended :
    (let b : SpawnBehavior :=
       { fate := SpawnEnd.closed none, output := " partial ", timedOut := true }
     let i1 : SchedInput :=
       { handle := "a", tmpl := { handle := "a" },
         disk := some { next_run_at := some (TsVal.valid 0), api_key := some "k1" },
         oracle := { action := b, tRun := 500 } }
     let i2 : SchedInput :=
       { handle := "b", tmpl := { handle := "b" },
         disk := some { next_run_at := some (TsVal.valid 50), api_key := some "k2" },
         oracle := { tRun := 600 } }
     runSpawnCommand b = Except.ok " partial ".trim ∧
     runScheduler 100 999 2 [i1, i2] =
       [("a", { next_run_at := some (TsVal.valid (nextRunAtFrom 500 500 {} 0)),
                last_run := some 500,
                api_key := some "k1", last_scheduled := some 100 }),
        ("b", { next_run_at := some (TsVal.valid (nextRunAtFrom 600 600 {} 0)),
                last_run := some 600,
                api_key := some "k2", last_scheduled := some 100 }),
        ("a", { next_run_at := some (TsVal.valid 0), api_key := some "k1",
                handle := some "a", updated_at := some 999 }),
        ("b", { next_run_at := some (TsVal.valid 50), api_key := some "k2",
                handle := some "b", updated_at := some 999 })]) := by
  exact ⟨rfl, rfl⟩

/-- C3 amended: in every invocation in which at least one instance is due,
the write log ends with a whole-record bookkeeping write for every tracked
instance — selected or not, and regardless of how a selected cycle ended —
and that trailing block covers exactly the tracked instances (one per
input). When no instance is due, the invocation returns early and writes
nothing. -/
theorem every_tracked_rewritten (now tFin : Int) (mpr : Int) (inputs : List SchedInput)
    (h : (runNowOf now inputs).isEmpty = false) :
    runScheduler now tFin mpr inputs =
      ((selectToRun (runNowOf now inputs) mpr).map (cycleWrites now)).flatten ++
        (trackedOf now inputs).map (fun item => (item.handle, bookkeep tFin item)) ∧
    (trackedOf now inputs).length = inputs.length := by
  refine ⟨runScheduler_writes now tFin mpr inputs h, ?_⟩
  simp [trackedOf]

/-- Witness for C3's amended theorem at a one-instance due input. -/
theorem every_tracked_rewritten_witness :
    runScheduler 100 999 1
        [{ handle := "a", tmpl := { handle := "a" },
           disk := some { next_run_at := some (TsVal.valid 0), api_key := some "key1" } }] =
      ((selectToRun (runNowOf 100
            [{ handle := "a", tmpl := { handle := "a" },
               disk := some { next_run_at := some (TsVal.valid 0), api_key := some "key1" } }]) 1).map
          (cycleWrites 100)).flatten ++
        (trackedOf 100
            [{ handle := "a", tmpl := { handle := "a" },
               disk := some { next_run_at := some (TsVal.valid 0), api_key := some "key1" } }]).map
          (fun item => (item.handle, bookkeep 999 item)) ∧
    (trackedOf 100
        [{ handle := "a", tmpl := { handle := "a" },
           disk := some { next_run_at := some (TsVal.valid 0), api_key := some "key1" } }]).length =
      [({ handle := "a", tmpl := { handle := "a" },
          disk := some { next_run_at := some (TsVal.valid 0), api_key := some "key1" } } : SchedInput)].length :=
  every_tracked_rewritten 100 999 1
    [{ handle := "a", tmpl := { handle := "a" },
       disk := some { next_run_at := some (TsVal.valid 0), api_key := some "key1" } }] (by decide)

/-- C4 counterexample: the dispatcher's selection is a deterministic
function of the due set's stored timestamps — with `max_parallel_runs = 1`
the instance with the earlier `next_run_at` is selected no matter in which
order the due set is listed, and re-evaluating the same due set always
yields the same singleton — there is no random shuffle. -/
theorem selection_not_shuffled :
    (let trA : Tracked := { handle := "a", state := { next_run_at := some (TsVal.valid 100) } }
     let trB : Tracked := { handle := "b", state := { next_run_at := some (TsVal.valid 200) } }
     selectToRun [trB, trA] 1 = [trA] ∧ selectToRun [trA, trB] 1 = [trA]) := by
  decide

/-- C4 amended: the Run Dispatcher sorts the due set ascending by the
stored `next_run_at` (a stable sort, hence a permutation of the due set)
and takes the first `max(1, max_parallel_runs)` entries of that sorted
order; the selection is sorted by due time and is an initial segment of the
sorted due set — a deterministic policy, not a uniformly random shuffle. -/
theorem selection_sorted_amended (l : List Tracked) (mpr : Int) :
    (sortRuns l).Perm l ∧
    List.Sorted keyLE (selectToRun l mpr) ∧
    List.Sublist (selectToRun l mpr) (sortRuns l) ∧
    selectToRun l mpr = (sortRuns l).take (max1 mpr) := by
  refine ⟨List.perm_insertionSort keyLE l, ?_, List.take_sublist _ _, rfl⟩
  exact (List.sorted_insertionSort keyLE l).sublist (List.take_sublist _ _)

/-- C5: the selection never exceeds `max(1, max_parallel_runs)` elements
and every selected entry belongs to the due set it was computed from. -/
theorem selection_bounded (l : List Tracked) (mpr : Int) :
    (selectToRun l mpr).length ≤ max1 mpr ∧ ∀ x ∈ selectToRun l mpr, x ∈ l := by
  constructor
  · exact List.length_take_le _ _
  · intro x hx
    exact mem_of_mem_selectToRun hx

/-- Witness for C5, discharging the membership hypothesis at a concrete
one-element due set. -/
theorem selection_bounded_witness :
    ({ handle := "a", state := { next_run_at := some (TsVal.valid 100) } } : Tracked) ∈
      [({ handle := "a", state := { next_run_at := some (TsVal.valid 100) } } : Tracked)] :=
  (selection_bounded [{ handle := "a", state := { next_run_at := some (TsVal.valid 100) } }] 3).2
    { handle := "a", state := { next_run_at := some (TsVal.valid 100) } } (by decide)

/-- C6 counterexample: a bootstrap run whose config entry supplies
`api_key = "new"` for an instance whose stored state already holds
`api_key = "old"` rewrites the state with the config key — the stored
credential IS replaced, contradicting the claim. -/
theorem bootstrap_replaces_credential :
    (bootstrapStep { handle := "a", api_key := some "new" }
        (some { next_run_at := some (TsVal.valid 5), api_key := some "old" }) {}).writes =
      [{ next_run_at := some (TsVal.valid 5), api_key := some "new",
         registered_at := some 0, updated_at := some 0 }] := by
  decide

/-- C6 amended: a stored credential survives everything except a bootstrap
whose config entry supplies an `api_key`: `registerAgent` returns a stored
key unchanged with no write and no registration call; a bootstrap whose
state already holds a key issues no registration call, and when the config
entry supplies no key it also persists the stored key unchanged; a run
cycle over a stored key writes only records that still carry that key; and
the scheduler's trailing bookkeeping write never changes the `api_key`
field. -/
theorem credential_amended (disk : Option AgentState) (agent : Template)
    (reg : RegOutcome) (t : Int) (k : String) (o : BootOracle)
    (tmpl2 : Template) (disk2 : Option AgentState) (st : AgentState) (o2 : CycleOracle) :
    (disk.bind (fun s => s.api_key) = some k →
      registerAgent disk agent reg t = { key := some k }) ∧
    ((disk.getD {}).api_key = some k →
      (bootstrapStep agent disk o).apiCalled = false) ∧
    ((disk.getD {}).api_key = some k → agent.api_key = none →
      ((bootstrapStep agent disk o).writes.map fun w => w.api_key) = [some k]) ∧
    (disk2.bind (fun s => s.api_key) = some k → st.api_key = some k →
      ((runAgent tmpl2 disk2 st o2).writes.map fun w => w.api_key) = [some k]) ∧
    (∀ item : Tracked, ∀ tFin : Int, (bookkeep tFin item).api_key = item.state.api_key) := by
  refine ⟨fun hk => registerAgent_stored hk, ?_, ?_, ?_, fun item tFin => rfl⟩
  · intro hk
    simp only [bootstrapStep]
    cases hn : (disk.getD {}).next_run_at <;> cases ha : agent.api_key <;>
      simp [hn, ha, hk]
  · intro hk ha
    simp only [bootstrapStep]
    cases hn : (disk.getD {}).next_run_at <;> simp [hn, ha, hk]
  · intro hd hs
    simp [runAgent, registerAgent_stored hd, hs]

/-- Witness for C6's amended theorem: each hypothesis discharged at a
concrete stored credential "key1". -/
theorem credential_amended_witness :
    registerAgent (some { api_key := some "key1" }) { handle := "a" }
        (RegOutcome.ok none none) 0 = { key := some "key1" } ∧
    (bootstrapStep { handle := "a" } (some { api_key := some "key1" }) {}).apiCalled = false ∧
    ((bootstrapStep { handle := "a" } (some { api_key := some "key1" }) {}).writes.map
        fun w => w.api_key) = [some "key1"] ∧
    ((runAgent { handle := "a" } (some { api_key := some "key1" })
        { api_key := some "key1" } {}).writes.map fun w => w.api_key) = [some "key1"] := by
  have h := credential_amended (some { api_key := some "key1" }) { handle := "a" }
    (RegOutcome.ok none none) 0 "key1" {} { handle := "a" } (some { api_key := some "key1" })
    { api_key := some "key1" } {}
  exact ⟨h.1 (by decide), h.2.1 (by decide), h.2.2.1 (by decide) (by decide),
    h.2.2.2.1 (by decide) (by decide)⟩

end BeehackSim
